import Mathlib

/-!
Shallow embedding of the StoryBot ELI5 pipeline
(`storybot_config.py`, `storybot_exceptions.py`, `storybot_agents.py`).

Python strings are modelled as Lean `String` viewed as its sequence of
code points (`String.data`); Python `str.strip` is modelled by
`pyStrip` (dropping whitespace code points from both ends), `len` by
`pyLen` (number of code points). Environment-variable configuration
loading is out of scope (per the spec); the default values from the
source are used.
-/

namespace StoryBot

/-- `AgentConfig` dataclass of `storybot_config.py`. -/
structure AgentConfig where
  name : String
  emoji : String
  description : String
  temperature : Float := 0.7

/-- One entry of `StoryBotConfig.age_configs` in `storybot_config.py`. -/
structure AgeConfig where
  name : String
  emoji : String
  description : String
  complexity : String
  vocabulary : String
  concepts : String
deriving DecidableEq

/-- The validation-related fields of `StoryBotConfig` (`min_topic_length`,
`max_topic_length`, `max_story_length`), with their default values
(`3`, `200`, `5000`) from `_load_default_config`. -/
structure StoryBotConfig where
  min_topic_length : Nat := 3
  max_topic_length : Nat := 200
  max_story_length : Nat := 5000
deriving DecidableEq

/-- The configuration with all defaults, as loaded when no environment
overrides are present. -/
def defaultConfig : StoryBotConfig := {}

/-- Python `str.strip()` on the code-point sequence: drop whitespace
from both ends. -/
def pyStrip (s : String) : String :=
  String.mk (((s.data.dropWhile Char.isWhitespace).reverse.dropWhile
    Char.isWhitespace).reverse)

/-- Python `len` on a string: number of code points. -/
def pyLen (s : String) : Nat := s.data.length

/-- Python truthiness test `not s` for a string: true iff empty. -/
def pyIsEmpty (s : String) : Bool := s.data.isEmpty

/-- `error_messages["empty_topic"]` of `StoryBotConfig`. -/
def empty_topic_msg : String := "Topic cannot be empty."

/-- `error_messages["invalid_topic"]` of `StoryBotConfig` (an f-string
over the configured bounds). -/
def invalid_topic_msg (cfg : StoryBotConfig) : String :=
  "Topic must be between " ++ toString cfg.min_topic_length ++ " and " ++
    toString cfg.max_topic_length ++ " characters."

/-- `StoryBotConfig.validate_topic`: returns `(is_valid, error_message)`. -/
def validate_topic (cfg : StoryBotConfig) (topic : String) :
    Bool × Option String :=
  if pyIsEmpty topic || pyIsEmpty (pyStrip topic) then
    (false, some empty_topic_msg)
  else
    let topic_length := pyLen (pyStrip topic)
    if topic_length < cfg.min_topic_length then
      (false, some (invalid_topic_msg cfg))
    else if topic_length > cfg.max_topic_length then
      (false, some (invalid_topic_msg cfg))
    else
      (true, none)

/-- `StoryBotConfig.get_age_group`: maps an age to an age-group key. -/
def get_age_group (age : Int) : String :=
  if age ≤ 8 then "5-8"
  else if age ≤ 12 then "9-12"
  else if age ≤ 17 then "13-17"
  else if age ≤ 25 then "18-25"
  else if age ≤ 40 then "26-40"
  else if age ≤ 50 then "41-50"
  else "50+"

/-- The `age_configs` table of `StoryBotConfig` as a partial map from
age-group key to configuration. -/
def age_configs : String → Option AgeConfig
  | "5-8" => some ⟨"Young Children (5-8)", "👶",
      "Very simple language, lots of repetition, basic concepts",
      "very_simple", "basic", "fundamental"⟩
  | "9-12" => some ⟨"Older Children (9-12)", "🧒",
      "Simple language with some challenging concepts",
      "simple", "intermediate", "basic"⟩
  | "13-17" => some ⟨"Teenagers (13-17)", "👨‍🎓",
      "More complex language, deeper concepts",
      "moderate", "advanced", "intermediate"⟩
  | "18-25" => some ⟨"Young Adults (18-25)", "👨‍💼",
      "Adult language with accessible explanations",
      "moderate", "adult", "comprehensive"⟩
  | "26-40" => some ⟨"Adults (26-40)", "👨‍💻",
      "Professional language with detailed explanations",
      "advanced", "professional", "detailed"⟩
  | "41-50" => some ⟨"Mature Adults (41-50)", "👨‍🏫",
      "Expert-level explanations with context",
      "expert", "expert", "comprehensive"⟩
  | "50+" => some ⟨"Senior Adults (50+)", "👴",
      "Wise, contextual explanations with life experience",
      "expert", "sophisticated", "comprehensive"⟩
  | _ => none

/-- The `age_configs["18-25"]` entry, used by `get_age_config` as the
fallback of `dict.get`. -/
def fallback_18_25 : AgeConfig :=
  ⟨"Young Adults (18-25)", "👨‍💼",
    "Adult language with accessible explanations",
    "moderate", "adult", "comprehensive"⟩

/-- `StoryBotConfig.get_age_config`:
`self.age_configs.get(self.get_age_group(age), self.age_configs["18-25"])`. -/
def get_age_config (age : Int) : AgeConfig :=
  (age_configs (get_age_group age)).getD fallback_18_25

/-- The seven age-group keys, in increasing band order. -/
def bandKeys : List String :=
  ["5-8", "9-12", "13-17", "18-25", "26-40", "41-50", "50+"]

/-- Position of an age-group key in the fixed band order (7 for a
string that is not a band key). -/
def bandIndex : String → Nat
  | "5-8" => 0
  | "9-12" => 1
  | "13-17" => 2
  | "18-25" => 3
  | "26-40" => 4
  | "41-50" => 5
  | "50+" => 6
  | _ => 7

/-! ### Exceptions (`storybot_exceptions.py`)

Only the exceptions that `create_story` can raise after construction are
modelled; each carries its message and its extra field. -/

/-- The `StoryBotException` subclasses raised during a `create_story`
call: `ValidationError(message, field)`, `AgentError(message,
agent_name)`, `PipelineError(message, step)`. -/
inductive StoryBotError where
  | validationError (message : String) (field : String)
  | agentError (message : String) (agent_name : String)
  | pipelineError (message : String) (step : String)
deriving DecidableEq

/-- Python `str(e)` on a `StoryBotException`: its message. -/
def StoryBotError.message : StoryBotError → String
  | .validationError m _ => m
  | .agentError m _ => m
  | .pipelineError m _ => m

/-! ### Agents and pipeline (`storybot_agents.py`)

The LLM is an opaque text-completion service: a function from the
formatted prompt to either a response or a raised exception (modelled
by its message string). Each agent's `chain.invoke(kwargs)` is the LLM
applied to the agent's template formatted with `kwargs`. -/

/-- The language model: prompt in, response or exception out. -/
def LLM : Type := String → Except String String

/-- An LLM stub that always answers (never raises). -/
def stubLLM (f : String → String) : LLM := fun p => Except.ok (f p)

/-- `agents_config["researcher"]` from `storybot_config.py`. -/
def researcher_config : AgentConfig :=
  ⟨"Researcher", "🧑‍🔬", "Researches and gathers information about topics",
    0.3⟩

/-- `agents_config["simplifier"]` from `storybot_config.py`. -/
def simplifier_config : AgentConfig :=
  ⟨"Simplifier", "📘", "Simplifies complex information for children", 0.5⟩

/-- `agents_config["storywriter"]` from `storybot_config.py`. -/
def storywriter_config : AgentConfig :=
  ⟨"Storywriter", "🧙", "Creates engaging stories for children", 0.8⟩

/-- `agents_config["educator"]` from `storybot_config.py`. -/
def educator_config : AgentConfig :=
  ⟨"Educator", "👶", "Reviews and improves stories for children", 0.4⟩

/-- `BaseAgent.process`: invoke the chain (template already formatted
into `prompt`); on success return the result text, on any exception
wrap it as an `AgentError` naming the agent. -/
def process (llm : LLM) (cfg : AgentConfig) (prompt : String) :
    Except StoryBotError String :=
  match llm prompt with
  | .ok result => .ok result
  | .error e =>
      .error (.agentError
        ("Failed to process input in " ++ cfg.name ++ ": " ++ e) cfg.name)

/-- `ResearcherAgent`'s prompt template, formatted with `topic`. -/
def researcher_template (topic : String) : String :=
  String.intercalate "\n" [
    "",
    "            You are an Information Research Specialist with over 15 years of experience in academic and applied research. ",
    "            You've developed a reputation for distilling large volumes of information into clear, actionable insights. ",
    "            You've worked across scientific, technical, and policy domains, and are skilled at separating credible sources from noise. ",
    "            You believe that clarity begins with rigorously sourced facts and that even complex ideas can be made understandable with the right foundation.",
    "",
    "            Your goal is to gather accurate and relevant information about a given topic from reliable sources.",
    "",
    "            Research the topic '" ++ topic ++ "' and summarize the key points in simple terms.",
    "            ",
    "            Expected output: A short, accurate summary of the topic using non-technical language.",
    "            "]

/-- The per-stage age parameters (`age_group_name`, `complexity_level`,
`vocabulary_level`, `concept_depth`) passed to the simplifier,
storywriter and educator agents. -/
structure StageParams where
  age_group_name : String
  complexity_level : String
  vocabulary_level : String
  concept_depth : String
deriving DecidableEq

/-- The stage parameters used by `create_story`: the age-band bundle,
or — when `simpler_language` is set — the band name tagged with
" (Simpler Language Mode)" and the lowest complexity settings. This
factors the two duplicated call sequences in the source, which differ
only in these four keyword arguments. -/
def stageParams (ac : AgeConfig) (simpler_language : Bool) : StageParams :=
  if simpler_language then
    ⟨ac.name ++ " (Simpler Language Mode)", "very_simple", "basic",
      "fundamental"⟩
  else
    ⟨ac.name, ac.complexity, ac.vocabulary, ac.concepts⟩

/-- `SimplifierAgent`'s prompt template, formatted with the research
text and the stage parameters. -/
def simplifier_template (ps : StageParams) (research : String) : String :=
  String.intercalate "\n" [
    "",
    "            You are a Language Simplifier and Analogy Creator with over a decade of experience working as a science communicator and education consultant. ",
    "            You've helped leading research institutions translate dense material into accessible content for different age groups. ",
    "            You specialize in using analogy, metaphor, and age-appropriate principles to craft explanations that resonate with your target audience. ",
    "            You believe that true understanding starts with empathy for your audience.",
    "",
    "            Your goal is to convert complex topics into age-appropriate explanations using analogies and clear language.",
    "",
    "            Age Group: " ++ ps.age_group_name,
    "            Complexity Level: " ++ ps.complexity_level,
    "            Vocabulary Level: " ++ ps.vocabulary_level,
    "            Concept Depth: " ++ ps.concept_depth,
    "",
    "            Take the following research summary and simplify it using analogies and language appropriate for this age group:",
    "",
    "            " ++ research,
    "            ",
    "            Expected output: A simplified, analogy-rich explanation suitable for the specified age group.",
    "            "]

/-- `StorywriterAgent`'s prompt template, formatted with the simplified
text and the stage parameters. -/
def storywriter_template (ps : StageParams) (simple : String) : String :=
  String.intercalate "\n" [
    "",
    "            You are a Creative Storyteller with over 12 published storybooks and a background in developmental psychology. ",
    "            You are known for creating narratives that both engage and educate across different age groups. ",
    "            You've spent years refining the craft of weaving core concepts into memorable stories that spark curiosity in learners of all ages. ",
    "            Your storytelling style is imaginative but always grounded in a clear learning goal.",
    "",
    "            Your goal is to turn simplified concepts into engaging and imaginative stories suitable for the target age group.",
    "",
    "            Age Group: " ++ ps.age_group_name,
    "            Complexity Level: " ++ ps.complexity_level,
    "            Vocabulary Level: " ++ ps.vocabulary_level,
    "            Concept Depth: " ++ ps.concept_depth,
    "",
    "            Create an engaging story for this age group that incorporates the following simplified explanation in a fun and imaginative way:",
    "",
    "            " ++ simple,
    "            ",
    "            Expected output: A story that teaches the concept through a narrative appropriate for the specified age group.",
    "            "]

/-- `EducatorAgent`'s prompt template, formatted with the story text and
the stage parameters. -/
def educator_template (ps : StageParams) (story : String) : String :=
  String.intercalate "\n" [
    "",
    "            You are an Educational Quality Reviewer with 20 years of experience in education across different age groups. ",
    "            You've taught and designed curricula for learners of all ages. ",
    "            You specialize in aligning content with cognitive and emotional development stages for different age groups. ",
    "            You're skilled at identifying what works—and what doesn't—for various age ranges, and you have a critical eye for making sure materials are not just entertaining, but pedagogically sound.",
    "",
    "            Your goal is to ensure the story is pedagogically sound, age-appropriate, and aligned with the target age group's comprehension levels.",
    "",
    "            Age Group: " ++ ps.age_group_name,
    "            Complexity Level: " ++ ps.complexity_level,
    "            Vocabulary Level: " ++ ps.vocabulary_level,
    "            Concept Depth: " ++ ps.concept_depth,
    "",
    "            Review the following story and provide ONLY the final polished story that is ready for this age group. Add a small paragraph at the end of the story that connects the topic to the story.",
    "            ",
    "            IMPORTANT: Keep the final story under 5000 characters to ensure it's concise and engaging.",
    "            ",
    "            Do not include any explanations, reviews, or commentary - just the story itself:",
    "",
    "            " ++ story,
    "            ",
    "            Expected output: ONLY the final polished story (under 5000 characters), nothing else.",
    "            "]

/-- A Python value stored in the result dictionary of `create_story`. -/
inductive PyValue where
  | str (s : String)
  | int (n : Int)
  | bool (b : Bool)
  | ageConfig (c : AgeConfig)
  | strList (l : List String)
deriving DecidableEq

/-- The Python dictionary returned by `create_story`: an ordered list of
key/value pairs. -/
def PyDict : Type := List (String × PyValue)

/-- Python `dict[key]` lookup (as an `Option`). -/
def dictGet (d : PyDict) (key : String) : Option PyValue :=
  (d.find? (fun p => p.1 == key)).map (fun p => p.2)

/-- The `PipelineError` that `create_story`'s `except` clause wraps a
stage exception `e` into. -/
def pipeline_wrap (topic : String) (age : Int) (e : StoryBotError) :
    StoryBotError :=
  .pipelineError
    ("Failed to create story for topic '" ++ topic ++ "' for age " ++
      toString age ++ ": " ++ e.message) "story_creation"

/-- `StoryBot.create_story`. Returns the raised exception or the result
dictionary, paired with the trace of prompts actually sent to the LLM,
in order. Topic validation and age validation happen before the
`try` block; the four stages run in fixed order inside it, each
formatting its template with the previous stage's output and the stage
parameters. -/
def create_story (llm : LLM) (cfg : StoryBotConfig) (topic : String)
    (age : Int) (simpler_language : Bool) :
    Except StoryBotError PyDict × List String :=
  let v := validate_topic cfg topic
  if v.1 = false then
    (.error (.validationError (v.2.getD "") "topic"), [])
  else if age < 5 ∨ age > 100 then
    (.error (.validationError "Age must be between 5 and 100" "age"), [])
  else
    let age_config := get_age_config age
    let ps := stageParams age_config simpler_language
    let p1 := researcher_template topic
    match process llm researcher_config p1 with
    | .error e => (.error (pipeline_wrap topic age e), [p1])
    | .ok research =>
      let p2 := simplifier_template ps research
      match process llm simplifier_config p2 with
      | .error e => (.error (pipeline_wrap topic age e), [p1, p2])
      | .ok simple =>
        let p3 := storywriter_template ps simple
        match process llm storywriter_config p3 with
        | .error e => (.error (pipeline_wrap topic age e), [p1, p2, p3])
        | .ok story =>
          let p4 := educator_template ps story
          match process llm educator_config p4 with
          | .error e => (.error (pipeline_wrap topic age e), [p1, p2, p3, p4])
          | .ok review =>
            (.ok [("topic", .str topic),
                  ("age", .int age),
                  ("age_group", .str (get_age_group age)),
                  ("age_config", .ageConfig age_config),
                  ("research", .str research),
                  ("simple", .str simple),
                  ("story", .str story),
                  ("review", .str review),
                  ("final_story", .str review),
                  ("agents_used", .strList
                    [researcher_config.name, simplifier_config.name,
                     storywriter_config.name, educator_config.name]),
                  ("simpler_language", .bool simpler_language)],
             [p1, p2, p3, p4])

/-! ### Helper lemmas -/

/-- A full run of `create_story` with a never-failing stub LLM: topic and
age validation pass, the four stages run in order, each prompt built
from the previous stage's response, and the result dictionary is
assembled from the four responses. -/
theorem create_story_stub_run (f : String → String) (cfg : StoryBotConfig)
    (topic : String) (age : Int) (simpler : Bool)
    (hv : (validate_topic cfg topic).1 = true)
    (h5 : 5 ≤ age) (h100 : age ≤ 100) :
    create_story (stubLLM f) cfg topic age simpler =
      (let ps := stageParams (get_age_config age) simpler
       let p1 := researcher_template topic
       let r1 := f p1
       let p2 := simplifier_template ps r1
       let r2 := f p2
       let p3 := storywriter_template ps r2
       let r3 := f p3
       let p4 := educator_template ps r3
       let r4 := f p4
       (Except.ok [("topic", PyValue.str topic),
          ("age", PyValue.int age),
          ("age_group", PyValue.str (get_age_group age)),
          ("age_config", PyValue.ageConfig (get_age_config age)),
          ("research", PyValue.str r1),
          ("simple", PyValue.str r2),
          ("story", PyValue.str r3),
          ("review", PyValue.str r4),
          ("final_story", PyValue.str r4),
          ("agents_used", PyValue.strList
            ["Researcher", "Simplifier", "Storywriter", "Educator"]),
          ("simpler_language", PyValue.bool simpler)],
        [p1, p2, p3, p4])) := by
  have hage : ¬(age < 5 ∨ age > 100) := by omega
  simp [create_story, process, stubLLM, hv, hage,
    researcher_config, simplifier_config, storywriter_config,
    educator_config]

/-! ### Claim theorems -/

/-- C2: for all ages `a1, a2` in `[5, 100]`, `get_age_group` returns one
of the seven fixed band keys, and the band is monotonically
non-decreasing in the age: if `a1 ≤ a2` then the band of `a1` is at or
below the band of `a2` in the fixed band order. -/
theorem age_group_in_bands_and_monotone (a1 a2 : Int)
    (ha1 : 5 ≤ a1) (ha1' : a1 ≤ 100) (ha2 : 5 ≤ a2) (ha2' : a2 ≤ 100)
    (hle : a1 ≤ a2) :
    get_age_group a1 ∈ bandKeys ∧
      bandIndex (get_age_group a1) ≤ bandIndex (get_age_group a2) := by
  constructor
  · unfold get_age_group bandKeys
    split_ifs <;> simp
  · unfold get_age_group
    split_ifs <;> simp [bandIndex] <;> omega

theorem age_group_in_bands_and_monotone_witness :
    get_age_group 7 ∈ bandKeys ∧
      bandIndex (get_age_group 7) ≤ bandIndex (get_age_group 30) :=
  age_group_in_bands_and_monotone 7 30 (by decide) (by decide) (by decide)
    (by decide) (by decide)

/-- C4 counterexample: the topic consisting of "abc" followed by 198
spaces has character length 201 > 200, yet `validate_topic` accepts it
(the code measures the length of the whitespace-stripped topic, which
is 3). This refutes the claim that every topic whose length exceeds
200 characters is rejected. -/
def longTopic : String := String.mk ('a' :: 'b' :: 'c' :: List.replicate 198 ' ')

set_option maxRecDepth 40000 in
theorem validate_topic_raw_length_counterexample :
    pyLen longTopic = 201 ∧ 200 < pyLen longTopic ∧
      (validate_topic defaultConfig longTopic).1 = true := by decide

/-- C4 (amended): `validate_topic` rejects a topic exactly when it is
empty, or whitespace-only, or the character length of its
whitespace-stripped form is below 3 or above 200. (The raw length is
not what is bounded; the stripped length is.) -/
theorem validate_topic_rejects_iff (topic : String) :
    (validate_topic defaultConfig topic).1 = false ↔
      (pyIsEmpty topic = true ∨ pyIsEmpty (pyStrip topic) = true ∨
       pyLen (pyStrip topic) < 3 ∨ 200 < pyLen (pyStrip topic)) := by
  simp only [validate_topic, defaultConfig]
  split_ifs with h1 h2 h3
  · simp only [Bool.or_eq_true] at h1
    simp
    tauto
  · simp
    exact Or.inr (Or.inr (Or.inl h2))
  · simp
    exact Or.inr (Or.inr (Or.inr h3))
  · simp only [Bool.or_eq_true, not_or, Bool.not_eq_true] at h1
    simp only [not_lt] at h2 h3
    simp [h1.1, h1.2]
    omega

/-- C9: `get_age_group` is total over all integers: every age (even
`0` or negative) maps to one of the seven band keys, every age `≤ 8`
maps to `"5-8"`, every age `> 50` maps to `"50+"`; and the
`age_configs` lookup always succeeds on the returned key, so the
fallback-to-`"18-25"` branch of `get_age_config` is unreachable. -/
theorem age_group_total_and_fallback_unreachable (age : Int) :
    get_age_group age ∈ bandKeys ∧
      (age ≤ 8 → get_age_group age = "5-8") ∧
      (50 < age → get_age_group age = "50+") ∧
      ∃ c, age_configs (get_age_group age) = some c ∧
        get_age_config age = c := by
  refine ⟨?_, ?_, ?_, ?_⟩
  · unfold get_age_group bandKeys
    split_ifs <;> simp
  · intro h
    unfold get_age_group
    simp [h]
  · intro h
    unfold get_age_group
    split_ifs <;> first | rfl | omega
  · unfold get_age_config get_age_group
    split_ifs <;> exact ⟨_, rfl, rfl⟩

theorem age_group_total_and_fallback_unreachable_witness :
    get_age_group (-2) ∈ bandKeys ∧ get_age_group (-2) = "5-8" ∧
      ∃ c, age_configs (get_age_group (-2)) = some c ∧
        get_age_config (-2) = c :=
  ⟨(age_group_total_and_fallback_unreachable (-2)).1,
   (age_group_total_and_fallback_unreachable (-2)).2.1 (by decide),
   (age_group_total_and_fallback_unreachable (-2)).2.2.2⟩

/-- C1: for every valid topic and in-range age, a full `create_story`
run with a stubbed LLM returns a record whose `final_story` field
equals the stub's response to the fourth (educator) prompt — the last
LLM response produced during the run (the educator prompt is the last
element of the call trace). -/
theorem final_story_eq_last_stub_response (f : String → String)
    (cfg : StoryBotConfig) (topic : String) (age : Int) (simpler : Bool)
    (hv : (validate_topic cfg topic).1 = true)
    (h5 : 5 ≤ age) (h100 : age ≤ 100) :
    let ps := stageParams (get_age_config age) simpler
    let p1 := researcher_template topic
    let p2 := simplifier_template ps (f p1)
    let p3 := storywriter_template ps (f p2)
    let p4 := educator_template ps (f p3)
    ∃ d, create_story (stubLLM f) cfg topic age simpler =
        (Except.ok d, [p1, p2, p3, p4]) ∧
      dictGet d "final_story" = some (PyValue.str (f p4)) := by
  intro ps p1 p2 p3 p4
  exact ⟨_, create_story_stub_run f cfg topic age simpler hv h5 h100, rfl⟩

theorem final_story_eq_last_stub_response_witness :
    (validate_topic defaultConfig "Photosynthesis").1 = true ∧
    (let f : String → String := fun _ => "a story"
     let ps := stageParams (get_age_config 6) false
     let p1 := researcher_template "Photosynthesis"
     let p2 := simplifier_template ps (f p1)
     let p3 := storywriter_template ps (f p2)
     let p4 := educator_template ps (f p3)
     ∃ d, create_story (stubLLM f) defaultConfig "Photosynthesis" 6 false =
         (Except.ok d, [p1, p2, p3, p4]) ∧
       dictGet d "final_story" = some (PyValue.str (f p4))) :=
  ⟨by decide,
   final_story_eq_last_stub_response (fun _ => "a story") defaultConfig
     "Photosynthesis" 6 false (by decide) (by decide) (by decide)⟩

/-- C3: with a stubbed LLM, `create_story` validates and resolves the
age parameters, then invokes the four stages in the fixed order
researcher, simplifier, storywriter, educator (the trace of prompts
sent, in order); each stage after the first is prompted with the
immediately preceding stage's output together with the resolved age
parameters, and all four stage outputs are packaged into the returned
record. -/
theorem create_story_stage_order_and_dataflow (f : String → String)
    (cfg : StoryBotConfig) (topic : String) (age : Int) (simpler : Bool)
    (hv : (validate_topic cfg topic).1 = true)
    (h5 : 5 ≤ age) (h100 : age ≤ 100) :
    let ps := stageParams (get_age_config age) simpler
    let p1 := researcher_template topic
    let r1 := f p1
    let p2 := simplifier_template ps r1
    let r2 := f p2
    let p3 := storywriter_template ps r2
    let r3 := f p3
    let p4 := educator_template ps r3
    let r4 := f p4
    create_story (stubLLM f) cfg topic age simpler =
      (Except.ok [("topic", PyValue.str topic),
         ("age", PyValue.int age),
         ("age_group", PyValue.str (get_age_group age)),
         ("age_config", PyValue.ageConfig (get_age_config age)),
         ("research", PyValue.str r1),
         ("simple", PyValue.str r2),
         ("story", PyValue.str r3),
         ("review", PyValue.str r4),
         ("final_story", PyValue.str r4),
         ("agents_used", PyValue.strList
           ["Researcher", "Simplifier", "Storywriter", "Educator"]),
         ("simpler_language", PyValue.bool simpler)],
       [p1, p2, p3, p4]) :=
  create_story_stub_run f cfg topic age simpler hv h5 h100

theorem create_story_stage_order_and_dataflow_witness :
    (validate_topic defaultConfig "Photosynthesis").1 = true ∧
    (let f : String → String := fun p => "re: " ++ p
     let ps := stageParams (get_age_config 9) true
     let p1 := researcher_template "Photosynthesis"
     let r1 := f p1
     let p2 := simplifier_template ps r1
     let r2 := f p2
     let p3 := storywriter_template ps r2
     let r3 := f p3
     let p4 := educator_template ps r3
     let r4 := f p4
     create_story (stubLLM f) defaultConfig "Photosynthesis" 9 true =
       (Except.ok [("topic", PyValue.str "Photosynthesis"),
          ("age", PyValue.int 9),
          ("age_group", PyValue.str (get_age_group 9)),
          ("age_config", PyValue.ageConfig (get_age_config 9)),
          ("research", PyValue.str r1),
          ("simple", PyValue.str r2),
          ("story", PyValue.str r3),
          ("review", PyValue.str r4),
          ("final_story", PyValue.str r4),
          ("agents_used", PyValue.strList
            ["Researcher", "Simplifier", "Storywriter", "Educator"]),
          ("simpler_language", PyValue.bool true)],
        [p1, p2, p3, p4])) :=
  ⟨by decide,
   create_story_stage_order_and_dataflow (fun p => "re: " ++ p)
     defaultConfig "Photosynthesis" 9 true (by decide) (by decide)
     (by decide)⟩

/-- C5: for every age outside `[5, 100]` and valid topic, `create_story`
raises `ValidationError` ("Age must be between 5 and 100", field
"age") and the pipeline never runs (no LLM call is made). -/
theorem create_story_rejects_out_of_range_age (llm : LLM)
    (cfg : StoryBotConfig) (topic : String) (age : Int) (simpler : Bool)
    (hv : (validate_topic cfg topic).1 = true)
    (hage : age < 5 ∨ age > 100) :
    create_story llm cfg topic age simpler =
      (Except.error (StoryBotError.validationError
        "Age must be between 5 and 100" "age"), []) := by
  simp [create_story, hv, hage]

theorem create_story_rejects_out_of_range_age_witness :
    (validate_topic defaultConfig "Photosynthesis").1 = true ∧
    create_story (stubLLM fun _ => "a story") defaultConfig
        "Photosynthesis" 101 false =
      (Except.error (StoryBotError.validationError
        "Age must be between 5 and 100" "age"), []) :=
  ⟨by decide,
   create_story_rejects_out_of_range_age (stubLLM fun _ => "a story")
     defaultConfig "Photosynthesis" 101 false (by decide)
     (by decide)⟩

/-- C10: when validation fails, `create_story` raises the
`ValidationError` before any stage runs — the LLM call trace is empty —
and the error reaches the caller as a `ValidationError`, not wrapped in
a `PipelineError`: an invalid topic raises
`ValidationError(error_message, field="topic")`, and a valid topic
with an out-of-range age raises `ValidationError("Age must be between
5 and 100", field="age")`. -/
theorem validation_error_before_any_stage (llm : LLM)
    (cfg : StoryBotConfig) (topic : String) (age : Int) (simpler : Bool) :
    ((validate_topic cfg topic).1 = false →
      create_story llm cfg topic age simpler =
        (Except.error (StoryBotError.validationError
          ((validate_topic cfg topic).2.getD "") "topic"), [])) ∧
    ((validate_topic cfg topic).1 = true → (age < 5 ∨ age > 100) →
      create_story llm cfg topic age simpler =
        (Except.error (StoryBotError.validationError
          "Age must be between 5 and 100" "age"), [])) := by
  constructor
  · intro h
    simp [create_story, h]
  · intro h1 h2
    simp [create_story, h1, h2]

theorem validation_error_before_any_stage_witness :
    (validate_topic defaultConfig "").1 = false ∧
    create_story (stubLLM fun _ => "a story") defaultConfig "" 10 false =
      (Except.error (StoryBotError.validationError
        ((validate_topic defaultConfig "").2.getD "") "topic"), []) :=
  ⟨by decide,
   (validation_error_before_any_stage (stubLLM fun _ => "a story")
     defaultConfig "" 10 false).1 (by decide)⟩

/-- C6: if a stage's LLM invocation raises, the later stages are never
invoked (the call trace stops at the failing stage's prompt) and
`create_story` surfaces the exception wrapped as an `AgentError` naming
the failing agent, wrapped in turn as a `PipelineError`. The four
conjuncts cover a failure at each of the four stages. -/
theorem stage_failure_aborts_and_wraps (llm : LLM) (cfg : StoryBotConfig)
    (topic : String) (age : Int) (simpler : Bool)
    (hv : (validate_topic cfg topic).1 = true)
    (h5 : 5 ≤ age) (h100 : age ≤ 100) :
    let ps := stageParams (get_age_config age) simpler
    let p1 := researcher_template topic
    (∀ e, llm p1 = Except.error e →
      create_story llm cfg topic age simpler =
        (Except.error (pipeline_wrap topic age (StoryBotError.agentError
          ("Failed to process input in Researcher: " ++ e) "Researcher")),
         [p1])) ∧
    (∀ r1 e, llm p1 = Except.ok r1 →
      llm (simplifier_template ps r1) = Except.error e →
      create_story llm cfg topic age simpler =
        (Except.error (pipeline_wrap topic age (StoryBotError.agentError
          ("Failed to process input in Simplifier: " ++ e) "Simplifier")),
         [p1, simplifier_template ps r1])) ∧
    (∀ r1 r2 e, llm p1 = Except.ok r1 →
      llm (simplifier_template ps r1) = Except.ok r2 →
      llm (storywriter_template ps r2) = Except.error e →
      create_story llm cfg topic age simpler =
        (Except.error (pipeline_wrap topic age (StoryBotError.agentError
          ("Failed to process input in Storywriter: " ++ e) "Storywriter")),
         [p1, simplifier_template ps r1, storywriter_template ps r2])) ∧
    (∀ r1 r2 r3 e, llm p1 = Except.ok r1 →
      llm (simplifier_template ps r1) = Except.ok r2 →
      llm (storywriter_template ps r2) = Except.ok r3 →
      llm (educator_template ps r3) = Except.error e →
      create_story llm cfg topic age simpler =
        (Except.error (pipeline_wrap topic age (StoryBotError.agentError
          ("Failed to process input in Educator: " ++ e) "Educator")),
         [p1, simplifier_template ps r1, storywriter_template ps r2,
          educator_template ps r3])) := by
  have hage : ¬(age < 5 ∨ age > 100) := by omega
  intro ps p1
  refine ⟨?_, ?_, ?_, ?_⟩
  · intro e he
    simp [create_story, process, hv, hage, he, researcher_config]
  · intro r1 e h1 he
    simp [create_story, process, hv, hage, h1, he, simplifier_config]
  · intro r1 r2 e h1 h2 he
    simp [create_story, process, hv, hage, h1, h2, he, storywriter_config]
  · intro r1 r2 r3 e h1 h2 h3 he
    simp [create_story, process, hv, hage, h1, h2, h3, he, educator_config]

theorem stage_failure_aborts_and_wraps_witness :
    (validate_topic defaultConfig "Photosynthesis").1 = true ∧
    create_story (fun _ => Except.error "boom") defaultConfig
        "Photosynthesis" 6 false =
      (Except.error (pipeline_wrap "Photosynthesis" 6
        (StoryBotError.agentError
          ("Failed to process input in Researcher: " ++ "boom")
          "Researcher")),
       [researcher_template "Photosynthesis"]) :=
  ⟨by decide,
   (stage_failure_aborts_and_wraps (fun _ => Except.error "boom")
     defaultConfig "Photosynthesis" 6 false (by decide) (by decide)
     (by decide)).1 "boom" rfl⟩

/-- The 5001-character string used to refute the story-length cap. -/
def bigStory : String := String.mk (List.replicate 5001 'a')

theorem bigStory_len : pyLen bigStory = 5001 :=
  List.length_replicate 5001 'a'

/-- C7 counterexample: with a stub whose educator-stage response is
5001 characters long, the successful run's `final_story` is that
5001-character string — not under the configured cap
`max_story_length = 5000`. The cap appears only as an instruction
inside the educator prompt; nothing in the code enforces it. -/
theorem story_cap_counterexample :
    (match (create_story (stubLLM fun _ => bigStory) defaultConfig
        "Photosynthesis" 6 false).1 with
      | Except.ok d => dictGet d "final_story"
      | Except.error _ => none) = some (PyValue.str bigStory) ∧
    defaultConfig.max_story_length < pyLen bigStory := by
  constructor
  · rw [create_story_stub_run (fun _ => bigStory) defaultConfig
      "Photosynthesis" 6 false (by decide) (by decide) (by decide)]
    rfl
  · rw [bigStory_len]
    decide

/-- C7 (amended): the story returned by a successful run is the final
(educator) stage's LLM response verbatim; the configured
`max_story_length` cap is not enforced, so a final-stage response
longer than the cap is returned unchanged, over the cap. -/
theorem final_story_verbatim_cap_not_enforced (f : String → String)
    (cfg : StoryBotConfig) (topic : String) (age : Int) (simpler : Bool)
    (hv : (validate_topic cfg topic).1 = true)
    (h5 : 5 ≤ age) (h100 : age ≤ 100)
    (hlong : cfg.max_story_length <
      pyLen (f (educator_template (stageParams (get_age_config age) simpler)
        (f (storywriter_template (stageParams (get_age_config age) simpler)
          (f (simplifier_template (stageParams (get_age_config age) simpler)
            (f (researcher_template topic))))))))) :
    let ps := stageParams (get_age_config age) simpler
    let r1 := f (researcher_template topic)
    let r2 := f (simplifier_template ps r1)
    let r3 := f (storywriter_template ps r2)
    let r4 := f (educator_template ps r3)
    let d : PyDict := [("topic", PyValue.str topic),
      ("age", PyValue.int age),
      ("age_group", PyValue.str (get_age_group age)),
      ("age_config", PyValue.ageConfig (get_age_config age)),
      ("research", PyValue.str r1),
      ("simple", PyValue.str r2),
      ("story", PyValue.str r3),
      ("review", PyValue.str r4),
      ("final_story", PyValue.str r4),
      ("agents_used", PyValue.strList
        ["Researcher", "Simplifier", "Storywriter", "Educator"]),
      ("simpler_language", PyValue.bool simpler)]
    (create_story (stubLLM f) cfg topic age simpler).1 = Except.ok d ∧
      dictGet d "final_story" = some (PyValue.str r4) ∧
      cfg.max_story_length < pyLen r4 := by
  intro ps r1 r2 r3 r4 d
  refine ⟨?_, rfl, hlong⟩
  rw [create_story_stub_run f cfg topic age simpler hv h5 h100]

theorem final_story_verbatim_cap_not_enforced_witness :
    (validate_topic defaultConfig "Photosynthesis").1 = true ∧
    defaultConfig.max_story_length < pyLen bigStory ∧
    (let _ps := stageParams (get_age_config 6) false
     let r1 := bigStory
     let r2 := bigStory
     let r3 := bigStory
     let r4 := bigStory
     let d : PyDict := [("topic", PyValue.str "Photosynthesis"),
       ("age", PyValue.int 6),
       ("age_group", PyValue.str (get_age_group 6)),
       ("age_config", PyValue.ageConfig (get_age_config 6)),
       ("research", PyValue.str r1),
       ("simple", PyValue.str r2),
       ("story", PyValue.str r3),
       ("review", PyValue.str r4),
       ("final_story", PyValue.str r4),
       ("agents_used", PyValue.strList
         ["Researcher", "Simplifier", "Storywriter", "Educator"]),
       ("simpler_language", PyValue.bool false)]
     (create_story (stubLLM fun _ => bigStory) defaultConfig
         "Photosynthesis" 6 false).1 = Except.ok d ∧
       dictGet d "final_story" = some (PyValue.str r4) ∧
       defaultConfig.max_story_length < pyLen r4) :=
  ⟨by decide, by rw [bigStory_len]; decide,
   final_story_verbatim_cap_not_enforced (fun _ => bigStory) defaultConfig
     "Photosynthesis" 6 false (by decide) (by decide) (by decide)
     (by rw [bigStory_len]; decide)⟩

/-- C8 counterexample: the result dictionary of a concrete successful
run has no "simplified" key — the simplified text is stored under the
key "simple" instead — refuting the claimed field list. -/
theorem result_has_no_simplified_field :
    (match (create_story (stubLLM fun _ => "out") defaultConfig
        "Photosynthesis" 6 false).1 with
      | Except.ok d => dictGet d "simplified" = none ∧
          dictGet d "simple" = some (PyValue.str "out")
      | Except.error _ => False) := by
  rw [create_story_stub_run (fun _ => "out") defaultConfig
    "Photosynthesis" 6 false (by decide) (by decide) (by decide)]
  exact ⟨rfl, rfl⟩

/-- C8 (amended): the record returned by a successful `create_story`
call contains the fields `topic`, `age`, `research`, `simple` (the
simplified text, stored under that key rather than "simplified"),
`story` and `final_story`; the `topic` field equals the caller's topic
unchanged and the `age` field equals the caller's age. The record is
built once, at the single return point of the run. -/
theorem result_record_fields (f : String → String) (cfg : StoryBotConfig)
    (topic : String) (age : Int) (simpler : Bool)
    (hv : (validate_topic cfg topic).1 = true)
    (h5 : 5 ≤ age) (h100 : age ≤ 100) :
    let ps := stageParams (get_age_config age) simpler
    let r1 := f (researcher_template topic)
    let r2 := f (simplifier_template ps r1)
    let r3 := f (storywriter_template ps r2)
    let r4 := f (educator_template ps r3)
    let d : PyDict := [("topic", PyValue.str topic),
      ("age", PyValue.int age),
      ("age_group", PyValue.str (get_age_group age)),
      ("age_config", PyValue.ageConfig (get_age_config age)),
      ("research", PyValue.str r1),
      ("simple", PyValue.str r2),
      ("story", PyValue.str r3),
      ("review", PyValue.str r4),
      ("final_story", PyValue.str r4),
      ("agents_used", PyValue.strList
        ["Researcher", "Simplifier", "Storywriter", "Educator"]),
      ("simpler_language", PyValue.bool simpler)]
    (create_story (stubLLM f) cfg topic age simpler).1 = Except.ok d ∧
      dictGet d "topic" = some (PyValue.str topic) ∧
      dictGet d "age" = some (PyValue.int age) ∧
      dictGet d "research" = some (PyValue.str r1) ∧
      dictGet d "simple" = some (PyValue.str r2) ∧
      dictGet d "story" = some (PyValue.str r3) ∧
      dictGet d "final_story" = some (PyValue.str r4) := by
  intro ps r1 r2 r3 r4 d
  refine ⟨?_, rfl, rfl, rfl, rfl, rfl, rfl⟩
  rw [create_story_stub_run f cfg topic age simpler hv h5 h100]

theorem result_record_fields_witness :
    (validate_topic defaultConfig "Photosynthesis").1 = true ∧
    (let _ps := stageParams (get_age_config 6) false
     let r1 := "out"
     let r2 := "out"
     let r3 := "out"
     let r4 := "out"
     let d : PyDict := [("topic", PyValue.str "Photosynthesis"),
       ("age", PyValue.int 6),
       ("age_group", PyValue.str (get_age_group 6)),
       ("age_config", PyValue.ageConfig (get_age_config 6)),
       ("research", PyValue.str r1),
       ("simple", PyValue.str r2),
       ("story", PyValue.str r3),
       ("review", PyValue.str r4),
       ("final_story", PyValue.str r4),
       ("agents_used", PyValue.strList
         ["Researcher", "Simplifier", "Storywriter", "Educator"]),
       ("simpler_language", PyValue.bool false)]
     (create_story (stubLLM fun _ => "out") defaultConfig
         "Photosynthesis" 6 false).1 = Except.ok d ∧
       dictGet d "topic" = some (PyValue.str "Photosynthesis") ∧
       dictGet d "age" = some (PyValue.int 6) ∧
       dictGet d "research" = some (PyValue.str r1) ∧
       dictGet d "simple" = some (PyValue.str r2) ∧
       dictGet d "story" = some (PyValue.str r3) ∧
       dictGet d "final_story" = some (PyValue.str r4)) :=
  ⟨by decide,
   result_record_fields (fun _ => "out") defaultConfig "Photosynthesis" 6
     false (by decide) (by decide) (by decide)⟩

end StoryBot
